import Mathlib

/-!
Verification of the authentication core of the todo-tasks web app backend
(src/backend/src): JWT issuance and verification (services/auth_service.py),
the request gatekeeper middleware (middleware/jwt_middleware.py), and the
per-route user-isolation check (routes/tasks.py).

The Python code delegates token cryptography to PyJWT and password hashing
to pyca/bcrypt.  Those libraries are embedded here at the granularity the
backend observes: HMAC-SHA256 is an ideal MAC (two MACs agree exactly when
key and signing input agree), base64/JSON token serialisation is abstracted
into a structured wire type with a `garbage` constructor for strings PyJWT
rejects structurally, and bcrypt digests are strings in an explicitly
parsable `salt`/`body` shape.  Raised Python exceptions are `Except`
errors.  Time is epoch seconds as an `Int`.
-/

namespace TodoApp

deriving instance DecidableEq for Except

/-- Field splitter on a separator character with the behaviour of Python
`str.split(sep)`: every empty field is kept, and the empty input yields a
single empty field.  Defined on character lists so that every run of the
model evaluates by structural recursion. -/
def splitChars (sep : Char) : List Char → List (List Char)
| [] => [[]]
| c :: cs =>
  if c = sep then [] :: splitChars sep cs
  else match splitChars sep cs with
    | [] => [[c]]
    | h :: t => (c :: h) :: t

/-- Python `s.startswith(p)` on the underlying character lists. -/
def strStartsWith (s p : String) : Bool :=
  p.data.isPrefixOf s.data

/-- Remainder of a character list after a required prefix, or `none` when
the prefix does not match. -/
def dropPrefixChars : List Char → List Char → Option (List Char)
| [], cs => some cs
| _ :: _, [] => none
| p :: ps, c :: cs => if c = p then dropPrefixChars ps cs else none

/-- A JWT header as the backend uses it: only the `alg` field matters,
since every decode call pins `algorithms=["HS256"]`. -/
structure JwtHeader where
  alg : String
deriving DecidableEq

/-- The claim set of a token.  `AuthService._generate_jwt_token` fills all
five fields; an arbitrary incoming token may omit any of them, so each
field is optional.  `iat` and `exp` are epoch seconds. -/
structure JwtPayload where
  user_id : Option String
  email : Option String
  iat : Option Int
  exp : Option Int
  sub : Option String
deriving DecidableEq

/-- A symbolic HMAC-SHA256 value over a signing input.  The MAC is ideal:
two signatures are equal exactly when they were computed with the same key
over the same header and payload.  This idealised collision freedom is the
only cryptographic assumption of the model. -/
structure HmacSig where
  key : String
  header : JwtHeader
  payload : JwtPayload
deriving DecidableEq

/-- Computation of the symbolic HMAC signature. -/
def hmacSign (key : String) (h : JwtHeader) (p : JwtPayload) : HmacSig :=
  ⟨key, h, p⟩

/-- A token string on the wire as `jwt.decode` sees it: either a string
that fails PyJWT's structural parse (`garbage`), or a well-formed
header/payload/signature triple.  Base64 and JSON serialisation are
abstracted away. -/
inductive TokenWire
| garbage (s : String)
| signed (header : JwtHeader) (payload : JwtPayload) (sig : HmacSig)
deriving DecidableEq

/-- Errors raised by PyJWT's `jwt.decode` on the paths this backend can
hit.  In PyJWT every one of them is a subclass of `InvalidTokenError`;
`expiredSignature` is `ExpiredSignatureError`, which the backend always
catches by its own clause before the generic one. -/
inductive JwtError
| decodeError
| invalidAlgorithm
| invalidSignature
| expiredSignature
deriving DecidableEq

/-- Model of PyJWT `jwt.decode(token, key, algorithms=["HS256"])` as called
in auth_service.py and jwt_middleware.py.  Order of checks, as in PyJWT:
structural parse; pinned-algorithm check on the header; signature
comparison; then the `exp` claim check, which raises
`ExpiredSignatureError` when `exp <= now` (zero leeway) and is skipped for
a payload without an `exp` claim. -/
def jwtDecode (tok : TokenWire) (key : String) (now : Int) :
    Except JwtError JwtPayload :=
  match tok with
  | .garbage _ => .error .decodeError
  | .signed header payload sig =>
    if header.alg ≠ "HS256" then .error .invalidAlgorithm
    else if sig ≠ hmacSign key header payload then .error .invalidSignature
    else match payload.exp with
      | some e => if e ≤ now then .error .expiredSignature else .ok payload
      | none => .ok payload

/-- Model of PyJWT `jwt.encode(payload, key, algorithm="HS256")`. -/
def jwtEncode (payload : JwtPayload) (key : String) : TokenWire :=
  .signed ⟨"HS256"⟩ payload (hmacSign key ⟨"HS256"⟩ payload)

/-- Fields of a `users` row that the auth service reads and writes
(src/backend/src/models.py). -/
structure User where
  id : String
  email : String
  password_hash : String
  name : Option String
  created_at : Int
  updated_at : Int
deriving DecidableEq

/-- Seconds in the 7-day token lifetime (`timedelta(days=7)`). -/
def tokenTTL : Int := 604800

/-- The claim set built by `AuthService._generate_jwt_token` for a user at
issuing instant `now`: `user_id`, `email`, `iat = now`,
`exp = now + 7 days`, and `sub` equal to the user id. -/
def jwtClaims (user : User) (now : Int) : JwtPayload :=
  { user_id := some user.id
  , email := some user.email
  , iat := some now
  , exp := some (now + tokenTTL)
  , sub := some user.id }

/-- Model of `AuthService._generate_jwt_token`: sign the claim set with
HS256 under the service secret and return the token together with the
expiry instant (the source also renders the expiry as an ISO-8601 string;
the instant is what the model keeps). -/
def generate_jwt_token (user : User) (secret : String) (now : Int) :
    TokenWire × Int :=
  (jwtEncode (jwtClaims user now) secret, now + tokenTTL)

/-- Caller-visible outcome classes of `AuthService.verify_jwt_token`: its
`except` clauses re-raise `ExpiredSignatureError` as one class, message
"Token expired. Please log in again", and every other `InvalidTokenError`
as a single generic class, message "Invalid authentication token". -/
inductive VerifyError
| expired
| invalidToken
deriving DecidableEq

/-- Model of `AuthService.verify_jwt_token`: wrap `jwt.decode` with the
pinned HS256 algorithm list; an expired token surfaces as
`VerifyError.expired` and every other decode failure as the single class
`VerifyError.invalidToken`.  No check of the `sub` claim happens here: a
successfully decoded payload is returned as is. -/
def verify_jwt_token (secret : String) (token : TokenWire) (now : Int) :
    Except VerifyError JwtPayload :=
  match jwtDecode token secret now with
  | .ok p => .ok p
  | .error .expiredSignature => .error .expired
  | .error _ => .error .invalidToken

/-- Python truthiness of an optional string: `None` and the empty string
are falsy. -/
def pyTruthy : Option String → Bool
| none => false
| some s => s ≠ ""

/-- Python `a or b` on optional strings: the first operand when truthy,
otherwise the second operand unchanged. -/
def pyOr (a b : Option String) : Option String :=
  if pyTruthy a then a else b

/-- An HTTP error raised as `HTTPException(status_code, detail)`. -/
structure HTTPExc where
  status : Nat
  detail : String
deriving DecidableEq

/-- The slice of an inbound request that the middleware inspects: HTTP
method, URL path, and the `Authorization` header (absent, or its string
value). -/
structure Request where
  method : String
  path : String
  authorization : Option String
deriving DecidableEq

/-- Identity attached to `request.state` by the middleware: the chosen
user identifier and the `email` claim (which may be absent). -/
structure AuthState where
  user_id : String
  email : Option String
deriving DecidableEq

/-- Outcome of `JWTMiddleware.dispatch`: pass the request through
untouched (bypassed requests), forward it downstream with a verified
identity attached to the request state, or reject it with an
`HTTPException` so that it never reaches downstream handling. -/
inductive DispatchResult
| passthrough
| forwarded (st : AuthState)
| rejected (e : HTTPExc)
deriving DecidableEq

/-- Paths exempted from authentication as public auth endpoints in
`JWTMiddleware.dispatch`. -/
def public_auth_paths : List String :=
  ["/api/auth/signup", "/api/auth/login"]

/-- Paths exempted from authentication as health/docs/static endpoints in
`JWTMiddleware.dispatch`. -/
def health_docs_paths : List String :=
  ["/", "/health", "/docs", "/redoc", "/openapi.json", "/favicon.ico"]

/-- Extraction of the token text, `auth_header.split(" ")[1]`.  Python
`str.split(" ")` keeps empty fields, so index 1 is the text between the
first and the second space (or to the end of the string); Lean `splitOn`
has the same non-collapsing behaviour.  For a header that passed the
`startswith("Bearer ")` check the index always exists. -/
def bearerToken (h : String) : String :=
  String.mk ((splitChars ' ' h.data).getD 1 [])

/-- Model of `JWTMiddleware.dispatch`.  `strToTok` stands for PyJWT's
structural parse of the extracted token string, `secret` for the
`BETTER_AUTH_SECRET` value, `now` for the verification-time clock.
OPTIONS requests and the two exempt path lists bypass authentication;
otherwise the Authorization header must be present and start with
"Bearer ", and the extracted token must decode under the secret.  Note
that the payload check `payload.get("user_id") or payload.get("sub")`
happens inside the `try` block, so the `HTTPException` it raises on a
falsy identifier is swallowed by the catch-all `except Exception` clause
and re-raised as 401 with detail "Authentication failed". -/
def dispatch (strToTok : String → TokenWire) (secret : String) (now : Int)
    (req : Request) : DispatchResult :=
  if req.method = "OPTIONS" then .passthrough
  else if req.path ∈ public_auth_paths then .passthrough
  else if req.path ∈ health_docs_paths then .passthrough
  else match req.authorization with
    | none => .rejected ⟨401, "Authentication required"⟩
    | some h =>
      if ¬ strStartsWith h "Bearer " then
        .rejected ⟨401, "Invalid authentication token format. Expected Bearer <token>"⟩
      else
        match jwtDecode (strToTok (bearerToken h)) secret now with
        | .error .expiredSignature =>
          .rejected ⟨401, "Token expired. Please log in again"⟩
        | .error _ => .rejected ⟨401, "Invalid authentication token"⟩
        | .ok payload =>
          match pyOr payload.user_id payload.sub with
          | none => .rejected ⟨401, "Authentication failed"⟩
          | some s =>
            if s = "" then .rejected ⟨401, "Authentication failed"⟩
            else .forwarded ⟨s, payload.email⟩

/-- Exceptions a Python callee may raise across the auth service: only
`ValueError(msg)` occurs on the modelled paths (raised by the service
itself on duplicate email or bad credentials, and by `bcrypt.checkpw` on a
malformed stored digest). -/
inductive PyError
| valueError (msg : String)
deriving DecidableEq

/-- Leading version/cost marker of a bcrypt digest in this model. -/
def bcryptHeader : String := "$2b$12$"

/-- Symbolic bcrypt key derivation: an ideal one-way function of password
and salt.  Only equality of outputs is ever relied on, so any executable
function whose output contains no dollar sign serves; the hash separator
below keeps digests parsable. -/
def bcryptKdf (password salt : String) : String :=
  password ++ "#" ++ salt

/-- Model of `bcrypt.hashpw(password, salt)`: a digest carrying its
version/cost marker, the salt, and the derived key.  The fixed-width
60-character wire format is abstracted into an explicitly parsable
dollar-separated shape. -/
def hashpw (password salt : String) : String :=
  bcryptHeader ++ salt ++ "$" ++ bcryptKdf password salt

/-- Structural parse bcrypt performs on the stored digest before hashing:
the marker/salt/body shape of this model.  pyca/bcrypt `hashpw` raises
`ValueError("Invalid salt")` on a digest whose prefix does not parse, and
`checkpw` calls `hashpw` on the stored digest. -/
def parseBcrypt (digest : String) : Option (String × String) :=
  match dropPrefixChars bcryptHeader.data digest.data with
  | none => none
  | some rest =>
    match splitChars '$' rest with
    | [salt, body] => some (String.mk salt, String.mk body)
    | _ => none

/-- Model of `bcrypt.checkpw(password, hashed)`: re-derive with the salt
taken from the stored digest and compare the results; a digest that does
not parse makes the call raise `ValueError("Invalid salt")` instead of
returning `false`. -/
def checkpw (password digest : String) : Except PyError Bool :=
  match parseBcrypt digest with
  | none => .error (.valueError "Invalid salt")
  | some (salt, _) => .ok (hashpw password salt == digest)

/-- Lookup `session.exec(select(User).where(User.email == email)).first()`
over the in-model user table. -/
def findByEmail (store : List User) (email : String) : Option User :=
  store.find? (fun u => u.email == email)

/-- Model of `AuthService.signup`: check email uniqueness, then hash the
password with a fresh salt and persist the new row.  `salt` models
`bcrypt.gensalt()`, `newId` the generated UUID, `now` the wall clock.  The
third component of the result counts invocations of the password hasher
`bcrypt.hashpw` during the call. -/
def signup (store : List User) (email password : String) (name : Option String)
    (salt newId : String) (now : Int) :
    Except PyError User × List User × Nat :=
  match findByEmail store email with
  | some _ =>
    (.error (.valueError "This email is already registered. Please log in instead"),
      store, 0)
  | none =>
    let user : User :=
      { id := newId
      , email := email
      , password_hash := hashpw password salt
      , name := name
      , created_at := now
      , updated_at := now }
    (.ok user, store ++ [user], 1)

/-- Model of `AuthService.login`: look up by email, raising
`ValueError("Invalid email or password")` when absent; verify the password
with `bcrypt.checkpw`, raising the identical `ValueError` on mismatch
while an exception out of `checkpw` propagates unmodified; on success
issue a JWT and return the user, the token, and its expiry instant. -/
def login (store : List User) (email password : String) (secret : String)
    (now : Int) : Except PyError (User × TokenWire × Int) :=
  match findByEmail store email with
  | none => .error (.valueError "Invalid email or password")
  | some user =>
    match checkpw password user.password_hash with
    | .error e => .error e
    | .ok false => .error (.valueError "Invalid email or password")
    | .ok true =>
      let r := generate_jwt_token user secret now
      .ok (user, r.1, r.2)

/-- Model of the login route handler (src/backend/src/routes/auth.py):
call `AuthService.login` and map any `ValueError` to
`HTTPException(401, "Invalid email or password")`.  Cookie handling is not
modelled. -/
def login_route (store : List User) (email password : String)
    (secret : String) (now : Int) :
    Except HTTPExc (User × TokenWire × Int) :=
  match login store email password secret now with
  | .error (.valueError _) => .error ⟨401, "Invalid email or password"⟩
  | .ok r => .ok r

/-- Fields of a `tasks` row (src/backend/src/models.py). -/
structure Task where
  id : Nat
  user_id : String
  title : String
  description : Option String
  completed : Bool
  created_at : Int
  updated_at : Int
deriving DecidableEq

/-- Body of a task-creation request after validation. -/
structure TaskCreate where
  title : String
  description : Option String
deriving DecidableEq

/-- Body of a task-update request after validation: absent fields are left
unchanged. -/
structure TaskUpdate where
  title : Option String
  description : Option String
deriving DecidableEq

/-- The 403 response raised by `validate_user_access` on an owner
mismatch. -/
def accessDenied : HTTPExc :=
  ⟨403, "Access denied. You can only access your own tasks."⟩

/-- Model of `validate_user_access` (src/backend/src/routes/tasks.py):
compare the authenticated `request.state.user_id` with the `user_id` path
segment and raise 403 Forbidden on mismatch. -/
def validate_user_access (st : AuthState) (user_id : String) :
    Except HTTPExc Unit :=
  if st.user_id ≠ user_id then .error accessDenied else .ok ()

/-- Lookup shared by the single-task endpoints:
`select(Task).where(Task.id == task_id, Task.user_id == user_id)`. -/
def findTask (store : List Task) (user_id : String) (task_id : Nat) :
    Option Task :=
  store.find? (fun t => t.id == task_id && t.user_id == user_id)

/-- Model of `create_task` (POST): user-isolation check first, then insert
a fresh task owned by the path user.  `newId` models the autoincrement
key, `now` the creation clock.  The second component is the task table
after the call. -/
def create_task (st : AuthState) (user_id : String) (task_data : TaskCreate)
    (store : List Task) (newId : Nat) (now : Int) :
    Except HTTPExc Task × List Task :=
  match validate_user_access st user_id with
  | .error e => (.error e, store)
  | .ok _ =>
    let t : Task :=
      { id := newId
      , user_id := user_id
      , title := task_data.title
      , description := task_data.description
      , completed := false
      , created_at := now
      , updated_at := now }
    (.ok t, store ++ [t])

/-- Model of `list_tasks` (GET): user-isolation check first, then the rows
filtered to the path user (their creation-date ordering is not
modelled). -/
def list_tasks (st : AuthState) (user_id : String) (store : List Task) :
    Except HTTPExc (List Task) × List Task :=
  match validate_user_access st user_id with
  | .error e => (.error e, store)
  | .ok _ => (.ok (store.filter (fun t => t.user_id == user_id)), store)

/-- Model of `get_task` (GET by id): user-isolation check first, then the
owner-filtered lookup, 404 when absent. -/
def get_task (st : AuthState) (user_id : String) (task_id : Nat)
    (store : List Task) : Except HTTPExc Task × List Task :=
  match validate_user_access st user_id with
  | .error e => (.error e, store)
  | .ok _ =>
    match findTask store user_id task_id with
    | none => (.error ⟨404, "Task not found"⟩, store)
    | some t => (.ok t, store)

/-- Model of `update_task` (PUT): user-isolation check first, then the
owner-filtered lookup; provided fields overwrite, `updated_at` is
refreshed, and the stored row is replaced. -/
def update_task (st : AuthState) (user_id : String) (task_id : Nat)
    (task_data : TaskUpdate) (store : List Task) (now : Int) :
    Except HTTPExc Task × List Task :=
  match validate_user_access st user_id with
  | .error e => (.error e, store)
  | .ok _ =>
    match findTask store user_id task_id with
    | none => (.error ⟨404, "Task not found"⟩, store)
    | some t =>
      let t2 : Task :=
        { t with
          title := (task_data.title).getD t.title
        , description :=
            match task_data.description with
            | some d => some d
            | none => t.description
        , updated_at := now }
      (.ok t2,
        store.map (fun u => if u.id == task_id && u.user_id == user_id then t2 else u))

/-- Model of `delete_task` (DELETE): user-isolation check first, then the
owner-filtered lookup, then a hard delete of the row. -/
def delete_task (st : AuthState) (user_id : String) (task_id : Nat)
    (store : List Task) : Except HTTPExc Unit × List Task :=
  match validate_user_access st user_id with
  | .error e => (.error e, store)
  | .ok _ =>
    match findTask store user_id task_id with
    | none => (.error ⟨404, "Task not found"⟩, store)
    | some _ =>
      (.ok (), store.filter (fun u => ¬ (u.id == task_id && u.user_id == user_id)))

/-- Model of `toggle_task_complete` (PATCH): user-isolation check first,
then the owner-filtered lookup, then the completion flag is flipped and
the row replaced. -/
def toggle_task_complete (st : AuthState) (user_id : String) (task_id : Nat)
    (store : List Task) (now : Int) : Except HTTPExc Task × List Task :=
  match validate_user_access st user_id with
  | .error e => (.error e, store)
  | .ok _ =>
    match findTask store user_id task_id with
    | none => (.error ⟨404, "Task not found"⟩, store)
    | some t =>
      let t2 : Task := { t with completed := ¬ t.completed, updated_at := now }
      (.ok t2,
        store.map (fun u => if u.id == task_id && u.user_id == user_id then t2 else u))

/-- The unauthenticated allow-list exactly as the specification words it:
the login, signup, and health endpoints (with CORS preflight handled by
method).  Declared for comparison with the lists the middleware actually
exempts; this definition follows the specification text, not the
source. -/
def specClaimAllowList : List String :=
  ["/api/auth/login", "/api/auth/signup", "/health"]

/-- Verification of a freshly issued token with the issuing secret reduces
to the expiry comparison: the structural, algorithm and signature checks
all pass, so the outcome is decided by `exp <= now` alone. -/
theorem verify_issued_token (user : User) (secret : String) (now t : Int) :
    verify_jwt_token secret (generate_jwt_token user secret now).1 t
      = if now + tokenTTL ≤ t then .error .expired else .ok (jwtClaims user now) := by
  by_cases h : now + tokenTTL ≤ t <;>
    simp [verify_jwt_token, jwtDecode, generate_jwt_token, jwtEncode, jwtClaims,
      hmacSign, h]

/-- C1: for every user record, signing secret and issuing instant, a token
issued by the codec verifies with the same secret at every instant
strictly before the computed expiry, and the returned payload's `sub` and
`user_id` claims equal the issuing user's id while its `email` claim
equals the user's email. -/
theorem c1_issue_verify_roundtrip (user : User) (secret : String) (now t : Int)
    (h : t < (generate_jwt_token user secret now).2) :
    verify_jwt_token secret (generate_jwt_token user secret now).1 t
      = .ok (jwtClaims user now)
    ∧ (jwtClaims user now).sub = some user.id
    ∧ (jwtClaims user now).user_id = some user.id
    ∧ (jwtClaims user now).email = some user.email := by
  have h2 : ¬ (now + tokenTTL ≤ t) := not_le.mpr h
  refine ⟨?_, rfl, rfl, rfl⟩
  rw [verify_issued_token, if_neg h2]

/-- Witness for C1 at a concrete user, secret, issuing instant 0 and
verification instant 5. -/
theorem c1_witness :
    verify_jwt_token "s"
        (generate_jwt_token ⟨"u1", "a@example.com", "ph", none, 0, 0⟩ "s" 0).1 5
      = .ok (jwtClaims ⟨"u1", "a@example.com", "ph", none, 0, 0⟩ 0)
    ∧ (jwtClaims (⟨"u1", "a@example.com", "ph", none, 0, 0⟩ : User) 0).sub = some "u1"
    ∧ (jwtClaims (⟨"u1", "a@example.com", "ph", none, 0, 0⟩ : User) 0).user_id = some "u1"
    ∧ (jwtClaims (⟨"u1", "a@example.com", "ph", none, 0, 0⟩ : User) 0).email
        = some "a@example.com" :=
  c1_issue_verify_roundtrip ⟨"u1", "a@example.com", "ph", none, 0, 0⟩ "s" 0 5 (by decide)

/-- C3: for every issued token, verification fails with the single
invalid-token class (the class `AuthService.verify_jwt_token` raises as
"Invalid authentication token", distinct from the expired class, and never
a success) whenever the verifying secret differs from the issuing secret,
whenever the signed payload has been altered after issuance while the
original signature is kept, or whenever the token's header claims an
algorithm other than the pinned HS256 (whatever its signature). -/
theorem c3_signature_integrity (user : User) (secret : String) (now t : Int) :
    (∀ secret2, secret2 ≠ secret →
      verify_jwt_token secret2 (generate_jwt_token user secret now).1 t
        = .error .invalidToken)
    ∧ (∀ p2 : JwtPayload, p2 ≠ jwtClaims user now →
      verify_jwt_token secret
          (.signed ⟨"HS256"⟩ p2 (hmacSign secret ⟨"HS256"⟩ (jwtClaims user now))) t
        = .error .invalidToken)
    ∧ (∀ (alg2 : String) (sig2 : HmacSig), alg2 ≠ "HS256" →
      verify_jwt_token secret (.signed ⟨alg2⟩ (jwtClaims user now) sig2) t
        = .error .invalidToken) := by
  refine ⟨?_, ?_, ?_⟩
  · intro secret2 hne
    simp [verify_jwt_token, jwtDecode, generate_jwt_token, jwtEncode, hmacSign,
      HmacSig.mk.injEq, Ne.symm hne]
  · intro p2 hp2
    simp [verify_jwt_token, jwtDecode, hmacSign, HmacSig.mk.injEq, Ne.symm hp2]
  · intro alg2 sig2 halg
    simp [verify_jwt_token, jwtDecode, halg]

/-- Witness for C3: wrong secret, altered payload under the original
signature, and wrong header algorithm, each at concrete inputs. -/
theorem c3_witness :
    verify_jwt_token "other"
        (generate_jwt_token ⟨"u1", "a@example.com", "ph", none, 0, 0⟩ "s" 0).1 5
      = .error .invalidToken
    ∧ verify_jwt_token "s"
        (.signed ⟨"HS256"⟩ ⟨some "evil", none, none, none, none⟩
          (hmacSign "s" ⟨"HS256"⟩
            (jwtClaims ⟨"u1", "a@example.com", "ph", none, 0, 0⟩ 0))) 5
      = .error .invalidToken
    ∧ verify_jwt_token "s"
        (.signed ⟨"none"⟩ (jwtClaims ⟨"u1", "a@example.com", "ph", none, 0, 0⟩ 0)
          (hmacSign "s" ⟨"HS256"⟩
            (jwtClaims ⟨"u1", "a@example.com", "ph", none, 0, 0⟩ 0))) 5
      = .error .invalidToken :=
  ⟨(c3_signature_integrity ⟨"u1", "a@example.com", "ph", none, 0, 0⟩ "s" 0 5).1
      "other" (by decide),
   (c3_signature_integrity ⟨"u1", "a@example.com", "ph", none, 0, 0⟩ "s" 0 5).2.1
      ⟨some "evil", none, none, none, none⟩ (by decide),
   (c3_signature_integrity ⟨"u1", "a@example.com", "ph", none, 0, 0⟩ "s" 0 5).2.2
      "none" (hmacSign "s" ⟨"HS256"⟩
        (jwtClaims ⟨"u1", "a@example.com", "ph", none, 0, 0⟩ 0)) (by decide)⟩

/-- C4: for every issued token, whose expiry instant is E = now + 7 days,
verification with the issuing secret yields the expired class exactly when
the verification instant is at or past E, and succeeds exactly when it is
strictly before E; in particular instant E itself is expired and instant
E - 1 second verifies.  There is no grace window. -/
theorem c4_expiry_boundary (user : User) (secret : String) (now t : Int) :
    (verify_jwt_token secret (generate_jwt_token user secret now).1 t
        = .error .expired
      ↔ (generate_jwt_token user secret now).2 ≤ t)
    ∧ (verify_jwt_token secret (generate_jwt_token user secret now).1 t
        = .ok (jwtClaims user now)
      ↔ t < (generate_jwt_token user secret now).2)
    ∧ verify_jwt_token secret (generate_jwt_token user secret now).1
        ((generate_jwt_token user secret now).2) = .error .expired
    ∧ verify_jwt_token secret (generate_jwt_token user secret now).1
        ((generate_jwt_token user secret now).2 - 1) = .ok (jwtClaims user now) := by
  have hgen : (generate_jwt_token user secret now).2 = now + tokenTTL := rfl
  refine ⟨?_, ?_, ?_, ?_⟩
  · rw [verify_issued_token, hgen]
    by_cases h : now + tokenTTL ≤ t <;> simp [h]
  · rw [verify_issued_token, hgen]
    by_cases h : now + tokenTTL ≤ t
    · simp only [if_pos h]
      simp
      omega
    · simp only [if_neg h]
      simp
      omega
  · rw [verify_issued_token, hgen, if_pos (le_refl _)]
  · rw [verify_issued_token, hgen, if_neg (by omega)]

/-- C2: whenever the verified identity attached to the request state has a
subject that differs from the user id in the task resource path, every
task endpoint rejects the request with the 403 access-denied response —
a status class distinct from the 401 authentication failure — and the
task table is left unchanged, with no task returned, created, updated or
deleted.  The hypothesis only constrains the attached identity, so this
holds in particular when the bearer token was valid and unexpired. -/
theorem c2_cross_user_isolation (st : AuthState) (S U : String)
    (hS : st.user_id = S) (hne : S ≠ U) (store : List Task) (d : TaskCreate)
    (du : TaskUpdate) (tid newId : Nat) (now : Int) :
    create_task st U d store newId now = (.error accessDenied, store)
    ∧ list_tasks st U store = (.error accessDenied, store)
    ∧ get_task st U tid store = (.error accessDenied, store)
    ∧ update_task st U tid du store now = (.error accessDenied, store)
    ∧ delete_task st U tid store = (.error accessDenied, store)
    ∧ toggle_task_complete st U tid store now = (.error accessDenied, store)
    ∧ accessDenied.status = 403 ∧ accessDenied.status ≠ 401 := by
  have hv : validate_user_access st U = .error accessDenied := by
    simp [validate_user_access, hS, hne]
  refine ⟨?_, ?_, ?_, ?_, ?_, ?_, rfl, by decide⟩
  all_goals
    simp [create_task, list_tasks, get_task, update_task, delete_task,
      toggle_task_complete, hv]

/-- Witness for C2: identity "alice" attached, path addressed to "bob". -/
theorem c2_witness :
    create_task ⟨"alice", none⟩ "bob" ⟨"t", none⟩ [] 1 0 = (.error accessDenied, [])
    ∧ list_tasks ⟨"alice", none⟩ "bob" [] = (.error accessDenied, [])
    ∧ get_task ⟨"alice", none⟩ "bob" 1 [] = (.error accessDenied, [])
    ∧ update_task ⟨"alice", none⟩ "bob" 1 ⟨none, none⟩ [] 0 = (.error accessDenied, [])
    ∧ delete_task ⟨"alice", none⟩ "bob" 1 [] = (.error accessDenied, [])
    ∧ toggle_task_complete ⟨"alice", none⟩ "bob" 1 [] 0 = (.error accessDenied, [])
    ∧ accessDenied.status = 403 ∧ accessDenied.status ≠ 401 :=
  c2_cross_user_isolation ⟨"alice", none⟩ "alice" "bob" rfl (by decide)
    [] ⟨"t", none⟩ ⟨none, none⟩ 1 1 0

/-- C6: when a user record with the given email already exists, signup
fails with the duplicate-email `ValueError`, the user table is returned
unchanged (so the existing record is untouched and no record is created),
and the password hasher is invoked zero times. -/
theorem c6_duplicate_signup (store : List User) (email password : String)
    (name : Option String) (salt newId : String) (now : Int) (u : User)
    (h : findByEmail store email = some u) :
    signup store email password name salt newId now
      = (.error (.valueError "This email is already registered. Please log in instead"),
          store, 0) := by
  simp [signup, h]

/-- Witness for C6 at a one-row store holding the signed-up email. -/
theorem c6_witness :
    signup [⟨"u1", "a@example.com", "ph", none, 0, 0⟩] "a@example.com" "pw2"
        none "salt2" "u2" 9
      = (.error (.valueError "This email is already registered. Please log in instead"),
          [⟨"u1", "a@example.com", "ph", none, 0, 0⟩], 0) :=
  c6_duplicate_signup [⟨"u1", "a@example.com", "ph", none, 0, 0⟩] "a@example.com"
    "pw2" none "salt2" "u2" 9 ⟨"u1", "a@example.com", "ph", none, 0, 0⟩ (by decide)

/-- C7: login with an unregistered email and login with a registered email
whose password fails hash verification produce the identical
`ValueError("Invalid email or password")` — same error type and same
caller-visible message — so the outcome does not reveal whether the email
is registered. -/
theorem c7_login_error_indistinguishable (store : List User)
    (e1 p1 e2 p2 secret : String) (now : Int) (u : User)
    (h1 : findByEmail store e1 = none)
    (h2 : findByEmail store e2 = some u)
    (h3 : checkpw p2 u.password_hash = .ok false) :
    login store e1 p1 secret now = .error (.valueError "Invalid email or password")
    ∧ login store e2 p2 secret now
        = .error (.valueError "Invalid email or password") := by
  constructor
  · simp [login, h1]
  · simp [login, h2, h3]

/-- Witness for C7: a store with one registered user, probed with an
unknown email and with the right email but a wrong password. -/
theorem c7_witness :
    login [⟨"u1", "a@example.com", hashpw "pw" "salt", none, 0, 0⟩]
        "b@example.com" "pw" "k" 0
      = .error (.valueError "Invalid email or password")
    ∧ login [⟨"u1", "a@example.com", hashpw "pw" "salt", none, 0, 0⟩]
        "a@example.com" "wrong" "k" 0
      = .error (.valueError "Invalid email or password") :=
  c7_login_error_indistinguishable
    [⟨"u1", "a@example.com", hashpw "pw" "salt", none, 0, 0⟩]
    "b@example.com" "pw" "a@example.com" "wrong" "k" 0
    ⟨"u1", "a@example.com", hashpw "pw" "salt", none, 0, 0⟩
    (by decide) (by decide) (by decide)

/-- C8 counterexample: on a malformed stored digest the credential check
raises `ValueError("Invalid salt")` — it does not return `false` — so the
claim that `verify(plaintext, digest)` returns false and never raises on
malformed digests fails at this input. -/
theorem c8_counterexample :
    checkpw "password123" "nothash" = .error (.valueError "Invalid salt")
    ∧ checkpw "password123" "nothash" ≠ .ok false := by
  exact ⟨by decide, by decide⟩

/-- C8 (amended): for every plaintext and malformed digest the credential
check raises `ValueError("Invalid salt")` rather than returning false;
`AuthService.login` propagates that exception unmodified, and the login
route handler maps it to the same 401 "Invalid email or password" response
as a wrong password, so the malformed digest is indistinguishable from a
wrong password at the route boundary though not at the hasher
interface. -/
theorem c8_amended_malformed_digest (p d : String) (hd : parseBcrypt d = none)
    (store : List User) (email secret : String) (now : Int) (u : User)
    (h2 : findByEmail store email = some u) (hu : u.password_hash = d) :
    checkpw p d = .error (.valueError "Invalid salt")
    ∧ login store email p secret now = .error (.valueError "Invalid salt")
    ∧ login_route store email p secret now
        = .error ⟨401, "Invalid email or password"⟩ := by
  have hc : checkpw p d = .error (.valueError "Invalid salt") := by
    simp [checkpw, hd]
  refine ⟨hc, ?_, ?_⟩
  · simp [login, h2, hu, hc]
  · simp [login_route, login, h2, hu, hc]

/-- Witness for the amended C8 at a store whose only record carries a
malformed digest. -/
theorem c8_witness :
    checkpw "password123" "bad" = .error (.valueError "Invalid salt")
    ∧ login [⟨"u1", "a@example.com", "bad", none, 0, 0⟩] "a@example.com"
        "password123" "k" 0 = .error (.valueError "Invalid salt")
    ∧ login_route [⟨"u1", "a@example.com", "bad", none, 0, 0⟩] "a@example.com"
        "password123" "k" 0 = .error ⟨401, "Invalid email or password"⟩ :=
  c8_amended_malformed_digest "password123" "bad" (by decide)
    [⟨"u1", "a@example.com", "bad", none, 0, 0⟩] "a@example.com" "k" 0
    ⟨"u1", "a@example.com", "bad", none, 0, 0⟩ (by decide) rfl

/-- Helper: a request meeting any of the three bypass conditions of the
middleware (OPTIONS method, public auth path, health/docs path) passes
through untouched, whatever its Authorization header holds. -/
theorem dispatch_bypass (strToTok : String → TokenWire) (secret : String)
    (now : Int) (req : Request)
    (hcond : req.method = "OPTIONS" ∨ req.path ∈ public_auth_paths
        ∨ req.path ∈ health_docs_paths) :
    dispatch strToTok secret now req = .passthrough := by
  rcases hcond with h | h | h <;> simp [dispatch, h]

/-- Helper: exhaustive description of `dispatch` on a request meeting no
bypass condition — it rejects with a 401 `HTTPException`, or forwards with
an identity extracted from a successfully decoded payload whose
`user_id`-or-`sub` value is a non-empty string. -/
theorem dispatch_cases (strToTok : String → TokenWire) (secret : String)
    (now : Int) (req : Request) (hm : req.method ≠ "OPTIONS")
    (hp1 : req.path ∉ public_auth_paths) (hp2 : req.path ∉ health_docs_paths) :
    (∃ e, dispatch strToTok secret now req = .rejected e ∧ e.status = 401)
    ∨ (∃ h payload s,
        req.authorization = some h
        ∧ jwtDecode (strToTok (bearerToken h)) secret now = .ok payload
        ∧ pyOr payload.user_id payload.sub = some s ∧ s ≠ ""
        ∧ dispatch strToTok secret now req = .forwarded ⟨s, payload.email⟩) := by
  rcases ha : req.authorization with _ | h
  · exact Or.inl ⟨⟨401, "Authentication required"⟩,
      by simp [dispatch, hm, hp1, hp2, ha], rfl⟩
  · by_cases hb : strStartsWith h "Bearer " = true
    · rcases hdec : jwtDecode (strToTok (bearerToken h)) secret now with e | payload
      · cases e
        · exact Or.inl ⟨⟨401, "Invalid authentication token"⟩,
            by simp [dispatch, hm, hp1, hp2, ha, hb, hdec], rfl⟩
        · exact Or.inl ⟨⟨401, "Invalid authentication token"⟩,
            by simp [dispatch, hm, hp1, hp2, ha, hb, hdec], rfl⟩
        · exact Or.inl ⟨⟨401, "Invalid authentication token"⟩,
            by simp [dispatch, hm, hp1, hp2, ha, hb, hdec], rfl⟩
        · exact Or.inl ⟨⟨401, "Token expired. Please log in again"⟩,
            by simp [dispatch, hm, hp1, hp2, ha, hb, hdec], rfl⟩
      · rcases hor : pyOr payload.user_id payload.sub with _ | s
        · exact Or.inl ⟨⟨401, "Authentication failed"⟩,
            by simp [dispatch, hm, hp1, hp2, ha, hb, hdec, hor], rfl⟩
        · by_cases hs : s = ""
          · exact Or.inl ⟨⟨401, "Authentication failed"⟩,
              by simp [dispatch, hm, hp1, hp2, ha, hb, hdec, hor, hs], rfl⟩
          · exact Or.inr ⟨h, payload, s, rfl, hdec, hor, hs,
              by simp [dispatch, hm, hp1, hp2, ha, hb, hdec, hor, hs]⟩
    · exact Or.inl ⟨⟨401, "Invalid authentication token format. Expected Bearer <token>"⟩,
        by simp [dispatch, hm, hp1, hp2, ha, hb], rfl⟩

/-- C5 counterexample: a GET request to "/docs" carrying no Authorization
header bypasses authentication and passes through to downstream handling,
although "/docs" is not on the allow-list the claim fixes (login, signup,
health) and the request is no CORS preflight; so the claimed "exactly
when" classification fails at this input. -/
theorem c5_counterexample :
    dispatch (fun s => TokenWire.garbage s) "secret" 0 ⟨"GET", "/docs", none⟩
      = .passthrough
    ∧ "/docs" ∉ specClaimAllowList
    ∧ ("GET" : String) ≠ "OPTIONS" :=
  ⟨by decide, by decide, by decide⟩

/-- C5 (amended): the middleware bypasses authentication exactly when the
request is a CORS preflight (OPTIONS method, whatever the path) or its
path is on the code's allow-lists — signup and login plus the root, health,
docs, redoc, openapi.json and favicon paths; the bypass condition reads
only the method and path, so a bypassed request proceeds with no header
extraction or token check; and on every other request nothing reaches
downstream handling unless token verification succeeded and produced the
attached identity. -/
theorem c5_amended_classification (strToTok : String → TokenWire)
    (secret : String) (now : Int) (req : Request) :
    (dispatch strToTok secret now req = .passthrough
      ↔ (req.method = "OPTIONS" ∨ req.path ∈ public_auth_paths
          ∨ req.path ∈ health_docs_paths))
    ∧ (∀ st, dispatch strToTok secret now req = .forwarded st →
        ∃ h payload s, req.authorization = some h
          ∧ jwtDecode (strToTok (bearerToken h)) secret now = .ok payload
          ∧ pyOr payload.user_id payload.sub = some s ∧ s ≠ ""
          ∧ st = ⟨s, payload.email⟩) := by
  constructor
  · constructor
    · intro hpass
      by_contra hnb
      push_neg at hnb
      rcases dispatch_cases strToTok secret now req hnb.1 hnb.2.1 hnb.2.2 with
        ⟨e, he, _⟩ | ⟨h, p, s, _, _, _, _, hf⟩
      · rw [hpass] at he
        simp at he
      · rw [hpass] at hf
        simp at hf
    · exact dispatch_bypass strToTok secret now req
  · intro st hst
    by_cases hcond : req.method = "OPTIONS" ∨ req.path ∈ public_auth_paths
        ∨ req.path ∈ health_docs_paths
    · rw [dispatch_bypass strToTok secret now req hcond] at hst
      simp at hst
    · push_neg at hcond
      rcases dispatch_cases strToTok secret now req hcond.1 hcond.2.1 hcond.2.2 with
        ⟨e, he, _⟩ | ⟨h, p, s, ha, hdec, hor, hs, hf⟩
      · rw [hst] at he
        simp at he
      · have h2 := hst.symm.trans hf
        injection h2 with h3
        exact ⟨h, p, s, ha, hdec, hor, hs, h3⟩

/-- Witness for the amended C5: a request to the login path with no
Authorization header is classified as bypassed. -/
theorem c5_witness :
    dispatch (fun s => TokenWire.garbage s) "k" 0
        ⟨"GET", "/api/auth/login", none⟩ = .passthrough :=
  (c5_amended_classification (fun s => TokenWire.garbage s) "k" 0
      ⟨"GET", "/api/auth/login", none⟩).1.mpr (Or.inr (Or.inl (by decide)))

/-- C9 counterexample: a token signed with the right secret, unexpired,
but carrying neither a `sub` nor a `user_id` claim is returned
successfully by the codec's verify — it is not rejected with a
missing-subject error — so the claim that the codec's verify never returns
success without a subject fails at this input. -/
theorem c9_counterexample :
    verify_jwt_token "secret"
        (jwtEncode ⟨none, some "a@example.com", some 0, some 604800, none⟩ "secret") 5
      = .ok ⟨none, some "a@example.com", some 0, some 604800, none⟩
    ∧ (⟨none, some "a@example.com", some 0, some 604800, none⟩ : JwtPayload).sub = none
    ∧ (⟨none, some "a@example.com", some 0, some 604800, none⟩ : JwtPayload).user_id
        = none :=
  ⟨by decide, rfl, rfl⟩

/-- C9 (amended): the mandatory-subject check lives solely in the
Gatekeeper middleware: on a signature-valid, unexpired token whose
`user_id` and `sub` claims are both absent or empty, the middleware
rejects the request with a 401 authentication failure (the specific
missing-user-identifier exception is raised inside the `try` block and
re-wrapped by the catch-all handler into the generic "Authentication
failed" detail), while the codec's `verify_jwt_token` returns the
subject-less payload successfully. -/
theorem c9_amended_subject_enforcement (strToTok : String → TokenWire)
    (secret : String) (now : Int) (req : Request) (h : String)
    (payload : JwtPayload)
    (hm : req.method ≠ "OPTIONS")
    (hp1 : req.path ∉ public_auth_paths)
    (hp2 : req.path ∉ health_docs_paths)
    (ha : req.authorization = some h)
    (hb : strStartsWith h "Bearer " = true)
    (hdec : jwtDecode (strToTok (bearerToken h)) secret now = .ok payload)
    (hu : pyTruthy payload.user_id = false)
    (hs : pyTruthy payload.sub = false) :
    dispatch strToTok secret now req = .rejected ⟨401, "Authentication failed"⟩
    ∧ verify_jwt_token secret (strToTok (bearerToken h)) now = .ok payload := by
  constructor
  · rcases hps : payload.sub with _ | s
    · simp [dispatch, hm, hp1, hp2, ha, hb, hdec, hps, pyOr, hu]
    · have hse : s = "" := by
        rw [hps] at hs
        simpa [pyTruthy] using hs
      simp [dispatch, hm, hp1, hp2, ha, hb, hdec, hps, hse, pyOr, hu]
  · simp [verify_jwt_token, hdec]

/-- Witness for the amended C9: a concrete signed, unexpired token with no
subject claims is rejected by the middleware and accepted by the codec. -/
theorem c9_witness :
    dispatch (fun _ => jwtEncode ⟨none, some "e@x", some 0, some 100, none⟩ "k")
        "k" 0 ⟨"GET", "/api/u1/tasks", some "Bearer t"⟩
      = .rejected ⟨401, "Authentication failed"⟩
    ∧ verify_jwt_token "k"
        ((fun _ => jwtEncode ⟨none, some "e@x", some 0, some 100, none⟩ "k")
          (bearerToken "Bearer t")) 0
      = .ok ⟨none, some "e@x", some 0, some 100, none⟩ :=
  c9_amended_subject_enforcement
    (fun _ => jwtEncode ⟨none, some "e@x", some 0, some 100, none⟩ "k") "k" 0
    ⟨"GET", "/api/u1/tasks", some "Bearer t"⟩ "Bearer t"
    ⟨none, some "e@x", some 0, some 100, none⟩
    (by decide) (by decide) (by decide) rfl (by decide) (by decide) rfl rfl

/-- C10: on every request meeting no bypass condition, the middleware
either rejects with an `HTTPException` of status 401 — never any other
status class, all decode failures and the in-`try` missing-identifier
exception included — or attaches to the request state a non-empty user
identifier, taken from the `user_id` claim with fallback to `sub`,
together with the `email` claim, and forwards the request downstream; a
request is forwarded only when the token extracted from its Authorization
header decoded successfully. -/
theorem c10_dispatch_totality (strToTok : String → TokenWire) (secret : String)
    (now : Int) (req : Request)
    (hnb : ¬ (req.method = "OPTIONS" ∨ req.path ∈ public_auth_paths
        ∨ req.path ∈ health_docs_paths)) :
    (∃ e, dispatch strToTok secret now req = .rejected e ∧ e.status = 401)
    ∨ (∃ h payload s,
        req.authorization = some h
        ∧ jwtDecode (strToTok (bearerToken h)) secret now = .ok payload
        ∧ pyOr payload.user_id payload.sub = some s ∧ s ≠ ""
        ∧ dispatch strToTok secret now req = .forwarded ⟨s, payload.email⟩) := by
  push_neg at hnb
  exact dispatch_cases strToTok secret now req hnb.1 hnb.2.1 hnb.2.2

/-- Witness for C10: a protected-path request with no Authorization header
lands in one of the two described outcomes. -/
theorem c10_witness :
    (∃ e, dispatch (fun s => TokenWire.garbage s) "k" 0
        ⟨"GET", "/api/u1/tasks", none⟩ = .rejected e ∧ e.status = 401)
    ∨ (∃ h payload s,
        (⟨"GET", "/api/u1/tasks", none⟩ : Request).authorization = some h
        ∧ jwtDecode ((fun s => TokenWire.garbage s) (bearerToken h)) "k" 0
            = .ok payload
        ∧ pyOr payload.user_id payload.sub = some s ∧ s ≠ ""
        ∧ dispatch (fun s => TokenWire.garbage s) "k" 0
            ⟨"GET", "/api/u1/tasks", none⟩ = .forwarded ⟨s, payload.email⟩) :=
  c10_dispatch_totality (fun s => TokenWire.garbage s) "k" 0
    ⟨"GET", "/api/u1/tasks", none⟩ (by decide)

end TodoApp
